import Mathlib

/-!
Verification of the report-form application (`app.py`) against its
natural-language specification.  The Python source is shallowly embedded:
pure functions become Lean functions, the counter file and the draft files
are modelled at the level of their parsed JSON contents, and the Streamlit
UI layer is out of scope except for the pure filename / serialization
expressions it evaluates.
-/

set_option autoImplicit false
set_option maxRecDepth 100000

/-- JSON values as produced by Python's `json.loads`: objects are association
lists (looked up with last-binding-wins, matching duplicate-key handling of
`json.loads`), Python ints are `Int`, floats are modelled exactly as
rationals. -/
inductive JsonVal where
  | jnull
  | jbool (b : Bool)
  | jnum (n : Int)
  | jfloat (q : ℚ)
  | jstr (s : String)
  | jarr (elems : List JsonVal)
  | jobj (fields : List (String × JsonVal))

/-- Lookup in a JSON object, last binding wins (as in a Python dict built by
`json.loads`). -/
def objGet : List (String × JsonVal) → String → Option JsonVal
  | [], _ => none
  | p :: rest, k =>
    match objGet rest k with
    | some v => some v
    | none => if p.1 = k then some p.2 else none

/-- State of the counter file `<draft_dir>/counter.json`: missing, present but
not parseable as JSON (`json.loads` raises), or parsed to a JSON value. -/
inductive FileContent where
  | absent
  | unparsable
  | parsed (v : JsonVal)

/-- The value Python binds to `counter` after the guarded read in
`next_report_code`: 0 when the file is missing; 0 when `json.loads` raises or
the parsed value has no `.get` attribute (non-dict), both caught by the
`except` clause; otherwise `dict.get("counter", 0)`. -/
def readCounter : FileContent → JsonVal
  | .absent => .jnum 0
  | .unparsable => .jnum 0
  | .parsed (.jobj kvs) => (objGet kvs "counter").getD (.jnum 0)
  | .parsed _ => .jnum 0

/-- Python `counter += 1` on a value obtained from JSON.  Ints and floats
increment; bools coerce to ints; every other type raises `TypeError`.  This
statement sits outside the `try` block in the source, so its failure
propagates. -/
def pyAdd1 : JsonVal → Except String JsonVal
  | .jnum n => .ok (.jnum (n + 1))
  | .jfloat q => .ok (.jfloat (q + 1))
  | .jbool b => .ok (.jnum (if b then 2 else 1))
  | _ => .error "TypeError"

/-- Left-pad a string with zeros to a minimum width. -/
def zeroPad (w : Nat) (s : String) : String :=
  String.mk (List.replicate (w - s.length) '0') ++ s

/-- Python's `f"{n:03d}"` on an int: minimum width 3, the sign counting
towards the width, never truncating. -/
def format03d (n : Int) : String :=
  if n < 0 then "-" ++ zeroPad 2 (toString n.natAbs) else zeroPad 3 (toString n.natAbs)

/-- Python's `f"{counter:03d}"` on the incremented counter value: formats
ints (and bools, which are ints), raises `ValueError` on floats and anything
else. -/
def pyFormat03d : JsonVal → Except String String
  | .jnum n => .ok (format03d n)
  | .jbool b => .ok (format03d (if b then 1 else 0))
  | _ => .error "ValueError"

/-- The counter file content `json.dumps({"counter": c})` produces. -/
def writtenCounterFile (c : JsonVal) : FileContent :=
  .parsed (.jobj [("counter", c)])

/-- The counter file holding exactly `{"counter": n}`. -/
def storedFile (n : Int) : FileContent :=
  writtenCounterFile (.jnum n)

/-- Embedding of `next_report_code` (app.py lines 48-60).  The directory
handling (`mkdir`) is elided; the counter file is the state.  Returns the
produced code (or the uncaught Python exception class) together with the
final state of the counter file.  Note the write at line 59 happens before
the formatting at line 60, so a formatting failure still leaves the file
rewritten. -/
def next_report_code (pfx : String) (fc : FileContent) :
    Except String String × FileContent :=
  match pyAdd1 (readCounter fc) with
  | .error e => (.error e, fc)
  | .ok c =>
    match pyFormat03d c with
    | .error e => (.error e, writtenCounterFile c)
    | .ok s => (.ok (pfx ++ s), writtenCounterFile c)

/-- `n` sequential calls of `next_report_code` against the same draft
directory, collecting the produced codes; a raised exception aborts the
sequence. -/
def allocSeq (pfx : String) : Nat → FileContent → Except String (List String) × FileContent
  | 0, fc => (.ok [], fc)
  | n + 1, fc =>
    match next_report_code pfx fc with
    | (.error e, fc1) => (.error e, fc1)
    | (.ok s, fc1) =>
      match allocSeq pfx n fc1 with
      | (.error e, fc2) => (.error e, fc2)
      | (.ok rest, fc2) => (.ok (s :: rest), fc2)

/-- The spec's zero-padding formula: the decimal digits of `n`, left-padded
with zeros to a minimum width of 3, never truncated. -/
def pad3 (n : Nat) : String :=
  String.mk (List.replicate (3 - (toString n).length) '0') ++ toString n

lemma format03d_natCast (n : Nat) : format03d (n : Int) = pad3 n := by
  unfold format03d pad3 zeroPad
  rw [if_neg (by omega)]
  simp

lemma next_report_code_stored (pfx : String) (m : Int) :
    next_report_code pfx (storedFile m) = (.ok (pfx ++ format03d (m + 1)), storedFile (m + 1)) := by
  simp [next_report_code, storedFile, writtenCounterFile, readCounter, objGet, pyAdd1,
    pyFormat03d]

lemma next_report_code_absent (pfx : String) :
    next_report_code pfx .absent = (.ok (pfx ++ format03d 1), storedFile 1) := by
  simp [next_report_code, storedFile, writtenCounterFile, readCounter, pyAdd1, pyFormat03d]

lemma allocSeq_stored (pfx : String) :
    ∀ (n : Nat) (m : Int),
      allocSeq pfx n (storedFile m) =
        (.ok ((List.range n).map (fun k : Nat => pfx ++ format03d (m + (k : Int) + 1))),
          storedFile (m + n)) := by
  intro n
  induction n with
  | zero => intro m; simp [allocSeq]
  | succ n ih =>
    intro m
    simp only [allocSeq, next_report_code_stored, ih (m + 1), List.range_succ_eq_map n,
      List.map_cons, List.map_map, Nat.cast_zero, Nat.cast_add, Nat.cast_one]
    refine congrArg₂ Prod.mk (congrArg Except.ok ?_) (congrArg storedFile (by omega))
    refine congrArg₂ List.cons ?_ ?_
    · exact congrArg (fun t : Int => pfx ++ format03d t) (by omega)
    · apply List.map_congr_left
      intro k _
      simp only [Function.comp_def]
      exact congrArg (fun t : Int => pfx ++ format03d t) (by omega)

lemma allocSeq_absent (pfx : String) (n : Nat) (hn : 1 ≤ n) :
    allocSeq pfx n .absent =
      (.ok ((List.range n).map (fun k : Nat => pfx ++ pad3 (k + 1))), storedFile n) := by
  obtain ⟨n', rfl⟩ : ∃ n', n = n' + 1 := ⟨n - 1, by omega⟩
  simp only [allocSeq, next_report_code_absent, allocSeq_stored, List.range_succ_eq_map n',
    List.map_cons, List.map_map, Nat.cast_zero, Nat.cast_add, Nat.cast_one]
  refine congrArg₂ Prod.mk (congrArg Except.ok ?_) (congrArg storedFile (by omega))
  refine congrArg₂ List.cons ?_ ?_
  · rw [show (1 : Int) = ((0 + 1 : Nat) : Int) by norm_num, format03d_natCast]
  · apply List.map_congr_left
    intro k _
    simp only [Function.comp_def]
    rw [show (1 : Int) + (k : Int) + 1 = (((k + 1) + 1 : Nat) : Int) by push_cast; ring,
      format03d_natCast]

/-- C1: starting from an empty draft directory (no counter file), `N`
sequential calls of `next_report_code` with prefix `pfx` return exactly the
codes `pfx ++ pad3 1, …, pfx ++ pad3 N` (i.e. X001, X002, …), and after the
`k`-th call the counter file stores the integer `k`. -/
theorem c1_alloc_sequence (pfx : String) (N : Nat) (hN : N ≤ 999) :
    (allocSeq pfx N .absent).1 = .ok ((List.range N).map (fun k => pfx ++ pad3 (k + 1))) ∧
    ∀ k, 1 ≤ k → k ≤ N → (allocSeq pfx k .absent).2 = storedFile k := by
  have habs := allocSeq_absent pfx
  constructor
  · rcases Nat.eq_zero_or_pos N with h0 | hpos
    · subst h0; simp [allocSeq]
    · rw [habs N hpos]
  · intro k hk1 hkN
    rw [habs k hk1]

/-- Witness for C1 at `pfx = "X"`, `N = 3`. -/
theorem c1_alloc_sequence_witness :
    3 ≤ 999 ∧
    ((allocSeq "X" 3 .absent).1 = .ok ((List.range 3).map (fun k => "X" ++ pad3 (k + 1))) ∧
      ∀ k, 1 ≤ k → k ≤ 3 → (allocSeq "X" 3 .absent).2 = storedFile 3) :=
  ⟨by norm_num,
    ⟨(c1_alloc_sequence "X" 3 (by norm_num)).1,
      fun _ _ _ => (c1_alloc_sequence "X" 3 (by norm_num)).2 3 (by norm_num) (by norm_num)⟩⟩

/-- C7: for every stored counter value `n`, the allocator returns the prefix
followed by `n + 1` zero-padded to a minimum width of 3 digits, never
truncated; in particular counter 7 with prefix "MavipeRTEC" yields
"MavipeRTEC007" and counter 1000 yields "MavipeRTEC1000". -/
theorem c7_zero_pad (pfx : String) (n : Nat) :
    (next_report_code pfx (storedFile n)).1 = .ok (pfx ++ pad3 (n + 1)) ∧
    next_report_code "MavipeRTEC" (storedFile 6) = (.ok "MavipeRTEC007", storedFile 7) ∧
    next_report_code "MavipeRTEC" (storedFile 999) = (.ok "MavipeRTEC1000", storedFile 1000) ∧
    pad3 7 = "007" ∧ pad3 1000 = "1000" := by
    refine ⟨?_, by rfl, by rfl, by rfl, by rfl⟩
    rw [next_report_code_stored]
    have : ((n : Int) + 1) = ((n + 1 : Nat) : Int) := by push_cast; ring
    rw [this, format03d_natCast]

/-- A counter file whose JSON parses, but whose `counter` entry is a string:
not parseable as the expected integer counter. -/
def corruptCounterFile : FileContent :=
  .parsed (.jobj [("counter", .jstr "not a number")])

/-- C2 counterexample: on the corrupted counter file
`{"counter": "not a number"}` the allocator does not reset to 0 and return
"X001"; the statement `counter += 1` sits outside the `try` block and raises
an uncaught `TypeError`. -/
theorem c2_counterexample :
    (next_report_code "X" corruptCounterFile).1 = .error "TypeError" ∧
    (next_report_code "X" corruptCounterFile).1 ≠ .ok "X001" := by
  refine ⟨rfl, ?_⟩
  intro h
  rw [show (next_report_code "X" corruptCounterFile).1 = .error "TypeError" from rfl] at h
  exact Except.noConfusion h

/-- C2 amended: for every counter file whose content fails the guarded
read-and-parse itself — unparsable JSON, JSON that is not an object, or an
object without a "counter" key — the allocator does not raise: it treats the
counter as 0 and returns the prefix followed by "001".  (An object whose
"counter" value is present but not an integer instead raises at the
increment, see the counterexample.) -/
theorem c2_amended (pfx : String) (fc : FileContent)
    (h : fc = .unparsable ∨
      (∃ v, fc = .parsed v ∧ ∀ kvs, v ≠ .jobj kvs) ∨
      (∃ kvs, fc = .parsed (.jobj kvs) ∧ objGet kvs "counter" = none)) :
    next_report_code pfx fc = (.ok (pfx ++ "001"), storedFile 1) := by
  have hrc : readCounter fc = .jnum 0 := by
    rcases h with rfl | ⟨v, rfl, hv⟩ | ⟨kvs, rfl, hk⟩
    · rfl
    · cases v <;> first | rfl | exact absurd rfl (hv _)
    · simp [readCounter, hk]
  have h001 : format03d 1 = "001" := rfl
  simp [next_report_code, hrc, pyAdd1, pyFormat03d, storedFile, h001]

/-- Witness for C2 amended: an unparsable counter file and prefix "X". -/
theorem c2_amended_witness :
    next_report_code "X" .unparsable = (.ok "X001", storedFile 1) :=
  c2_amended "X" .unparsable (Or.inl rfl)

/-- Truthiness of Python `s.strip()`: true iff `s` has a character outside
Python's whitespace set. -/
def pyIsSpace (c : Char) : Bool :=
  c == ' ' || c == '\t' || c == '\n' || c == '\x0d' || c == '\x0b' || c == '\x0c'

/-- True iff the Python expression `s.strip()` is truthy, i.e. `s` has a
character outside Python's whitespace set. -/
def pyStripTruthy (s : String) : Bool :=
  s.data.any (fun c => !(pyIsSpace c))

/-- Python `a or b` on strings: `b` when `a` is empty, else `a`. -/
def pyOr (a b : String) : String :=
  if a = "" then b else a

/-- Data model `Autor` (app.py lines 32-35). -/
structure Autor where
  nome : String := ""
  cargo : String := ""
  email : String := ""
deriving DecidableEq

/-- Data model `Referencia` (app.py lines 37-38). -/
structure Referencia where
  referencia : String := ""
deriving DecidableEq

/-- Data model `Anexo` (app.py lines 40-43). -/
structure Anexo where
  titulo : String := ""
  descricao : String := ""
  link : String := ""
deriving DecidableEq

/-- The default of the `data` field, `dt.date.today().strftime("%Y-%m-%d")`,
captured once at module import; modelled as a fixed constant date string. -/
def todayStr : String := "2026-10-12"

/-- Data model `Relatorio` (app.py lines 62-88), with the declared field
defaults. -/
structure Relatorio where
  titulo : String := "Relatório Técnico"
  cliente : String := ""
  projeto : String := ""
  codigo : String := ""
  data : String := todayStr
  versao : String := "1.0"
  autores : List Autor := [{ nome := "", cargo := "", email := "" }]
  aprovador : String := ""
  resumo_exec : String := ""
  escopo : String := ""
  dados_fontes : String := ""
  metodologia : String := ""
  resultados : String := ""
  discussoes : String := ""
  conclusoes : String := ""
  recomendacoes : String := ""
  referencias : List Referencia := []
  anexos : List Anexo := []
  observacoes : String := ""
deriving DecidableEq

/-- The `autores_md` join of `to_markdown`: one line per author whose
stripped name is truthy. -/
def autores_md (r : Relatorio) : String :=
  String.intercalate "\n"
    ((r.autores.filter (fun a => pyStripTruthy a.nome)).map
      (fun a => "- " ++ a.nome ++ " (" ++ a.cargo ++ ") <" ++ a.email ++ ">"))

/-- The `refs_md` join of `to_markdown`. -/
def refs_md (r : Relatorio) : String :=
  String.intercalate "\n"
    ((r.referencias.filter (fun x => pyStripTruthy x.referencia)).map
      (fun x => "- " ++ x.referencia))

/-- The `anexos_md` join of `to_markdown`; note the space before the optional
link segment is always emitted. -/
def anexos_md (r : Relatorio) : String :=
  String.intercalate "\n"
    ((r.anexos.filter (fun a => pyStripTruthy a.titulo)).map
      (fun a => "- **" ++ a.titulo ++ "** – " ++ a.descricao ++ " " ++
        (if a.link ≠ "" then "(" ++ a.link ++ ")" else "")))

/-- The `parts` list of `to_markdown` (app.py lines 100-122), element for
element. -/
def to_markdown_parts (r : Relatorio) : List String :=
  [ "# " ++ r.titulo,
    "**Cliente:** " ++ r.cliente ++ "  ",
    "**Projeto:** " ++ r.projeto ++ "  ",
    "**Código:** " ++ r.codigo ++ "  ",
    "**Data:** " ++ r.data ++ "  ",
    "**Versão:** " ++ r.versao,
    "\n---\n",
    "## Autores",
    pyOr (autores_md r) "(preencher)",
    "\n**Aprovador:** " ++ pyOr r.aprovador "(preencher)" ++ "\n",
    "\n## Resumo Executivo\n" ++ pyOr r.resumo_exec "(preencher)",
    "\n## Escopo\n" ++ pyOr r.escopo "(preencher)",
    "\n## Dados & Fontes\n" ++ pyOr r.dados_fontes "(preencher)",
    "\n## Metodologia\n" ++ pyOr r.metodologia "(preencher)",
    "\n## Resultados\n" ++ pyOr r.resultados "(preencher)",
    "\n## Discussões\n" ++ pyOr r.discussoes "(preencher)",
    "\n## Conclusões\n" ++ pyOr r.conclusoes "(preencher)",
    "\n## Recomendações\n" ++ pyOr r.recomendacoes "(preencher)",
    "\n## Referências\n" ++ pyOr (refs_md r) "(preencher)",
    "\n## Anexos\n" ++ pyOr (anexos_md r) "(preencher)",
    "\n## Observações\n" ++ pyOr r.observacoes "" ]

/-- Embedding of `to_markdown` (app.py lines 91-123). -/
def to_markdown (r : Relatorio) : String :=
  String.intercalate "\n" (to_markdown_parts r)

/-- True iff the first list is a prefix of the second. -/
def charsPrefix : List Char → List Char → Bool
  | [], _ => true
  | _ :: _, [] => false
  | p :: ps, c :: cs => p == c && charsPrefix ps cs

/-- True iff the first list occurs as a contiguous sublist of the second. -/
def charsSub (pat : List Char) : List Char → Bool
  | [] => pat.isEmpty
  | c :: cs => charsPrefix pat (c :: cs) || charsSub pat cs

/-- True iff `pat` occurs as a substring of `s`. -/
def strContains (s pat : String) : Bool :=
  charsSub pat.data s.data

/-- A report with every narrative field (including `observacoes`), every
metadata field, the approver, and all collections empty: the default blank
author, no references, no attachments. -/
def rEmptyC3 : Relatorio :=
  { titulo := "", cliente := "", projeto := "", codigo := "", data := "",
    versao := "", autores := [{ nome := "", cargo := "", email := "" }],
    aprovador := "", resumo_exec := "", escopo := "", dados_fontes := "",
    metodologia := "", resultados := "", discussoes := "", conclusoes := "",
    recomendacoes := "", referencias := [], anexos := [], observacoes := "" }

/-- C3 counterexample: for a report with all narrative fields empty the
`Observações` section of the markup output renders no "(preencher)"
placeholder (line 121 uses `or ""`), although other sections such as
`Anexos` do; so the placeholder is not emitted in place of every empty
section's content. -/
theorem c3_counterexample :
    strContains (to_markdown rEmptyC3) "## Observações\n(preencher)" = false ∧
    strContains (to_markdown rEmptyC3) "## Anexos\n(preencher)" = true ∧
    (to_markdown_parts rEmptyC3).getLast? = some "\n## Observações\n" := by
  refine ⟨by rfl, by rfl, by rfl⟩

/-- C3 amended: in the markup output, every section except `Observações`
renders the literal "(preencher)" placeholder when its content is empty;
the `Observações` section instead renders its (empty) content verbatim,
because line 121 falls back to the empty string rather than to the
placeholder. -/
theorem c3_amended (r : Relatorio)
    (haut : ∀ a ∈ r.autores, pyStripTruthy a.nome = false)
    (hap : r.aprovador = "")
    (h1 : r.resumo_exec = "") (h2 : r.escopo = "") (h3 : r.dados_fontes = "")
    (h4 : r.metodologia = "") (h5 : r.resultados = "") (h6 : r.discussoes = "")
    (h7 : r.conclusoes = "") (h8 : r.recomendacoes = "")
    (href : r.referencias = []) (hanx : r.anexos = []) (hobs : r.observacoes = "") :
    to_markdown_parts r =
      [ "# " ++ r.titulo,
        "**Cliente:** " ++ r.cliente ++ "  ",
        "**Projeto:** " ++ r.projeto ++ "  ",
        "**Código:** " ++ r.codigo ++ "  ",
        "**Data:** " ++ r.data ++ "  ",
        "**Versão:** " ++ r.versao,
        "\n---\n",
        "## Autores",
        "(preencher)",
        "\n**Aprovador:** (preencher)\n",
        "\n## Resumo Executivo\n(preencher)",
        "\n## Escopo\n(preencher)",
        "\n## Dados & Fontes\n(preencher)",
        "\n## Metodologia\n(preencher)",
        "\n## Resultados\n(preencher)",
        "\n## Discussões\n(preencher)",
        "\n## Conclusões\n(preencher)",
        "\n## Recomendações\n(preencher)",
        "\n## Referências\n(preencher)",
        "\n## Anexos\n(preencher)",
        "\n## Observações\n" ] := by
  have hnil : String.intercalate "\n" ([] : List String) = "" := rfl
  have hA : autores_md r = "" := by
    have hf : r.autores.filter (fun a => pyStripTruthy a.nome) = [] :=
      List.filter_eq_nil_iff.mpr (fun a ha => by simp [haut a ha])
    simp [autores_md, hf, hnil]
  simp [to_markdown_parts, hA, hap, h1, h2, h3, h4, h5, h6, h7, h8, href, hanx, hobs,
    pyOr, refs_md, anexos_md, hnil]

/-- Witness for C3 amended at the all-empty report. -/
theorem c3_amended_witness :
    (∀ a ∈ rEmptyC3.autores, pyStripTruthy a.nome = false) ∧
    to_markdown_parts rEmptyC3 =
      [ "# " ++ rEmptyC3.titulo,
        "**Cliente:** " ++ rEmptyC3.cliente ++ "  ",
        "**Projeto:** " ++ rEmptyC3.projeto ++ "  ",
        "**Código:** " ++ rEmptyC3.codigo ++ "  ",
        "**Data:** " ++ rEmptyC3.data ++ "  ",
        "**Versão:** " ++ rEmptyC3.versao,
        "\n---\n",
        "## Autores",
        "(preencher)",
        "\n**Aprovador:** (preencher)\n",
        "\n## Resumo Executivo\n(preencher)",
        "\n## Escopo\n(preencher)",
        "\n## Dados & Fontes\n(preencher)",
        "\n## Metodologia\n(preencher)",
        "\n## Resultados\n(preencher)",
        "\n## Discussões\n(preencher)",
        "\n## Conclusões\n(preencher)",
        "\n## Recomendações\n(preencher)",
        "\n## Referências\n(preencher)",
        "\n## Anexos\n(preencher)",
        "\n## Observações\n" ] :=
  ⟨by decide,
    c3_amended rEmptyC3 (by decide) rfl rfl rfl rfl rfl rfl rfl rfl rfl rfl rfl rfl⟩

/-- `Autor.model_dump()`: the JSON object pydantic serializes an author to. -/
def Autor.model_dump (a : Autor) : JsonVal :=
  .jobj [("nome", .jstr a.nome), ("cargo", .jstr a.cargo), ("email", .jstr a.email)]

/-- `Referencia.model_dump()`. -/
def Referencia.model_dump (x : Referencia) : JsonVal :=
  .jobj [("referencia", .jstr x.referencia)]

/-- `Anexo.model_dump()`. -/
def Anexo.model_dump (a : Anexo) : JsonVal :=
  .jobj [("titulo", .jstr a.titulo), ("descricao", .jstr a.descricao),
    ("link", .jstr a.link)]

/-- `Relatorio.model_dump()` (used by draft save, model download and the
upload paths): field-for-field structural dump, nested models as nested
objects. -/
def Relatorio.model_dump (r : Relatorio) : JsonVal :=
  .jobj [
    ("titulo", .jstr r.titulo),
    ("cliente", .jstr r.cliente),
    ("projeto", .jstr r.projeto),
    ("codigo", .jstr r.codigo),
    ("data", .jstr r.data),
    ("versao", .jstr r.versao),
    ("autores", .jarr (r.autores.map Autor.model_dump)),
    ("aprovador", .jstr r.aprovador),
    ("resumo_exec", .jstr r.resumo_exec),
    ("escopo", .jstr r.escopo),
    ("dados_fontes", .jstr r.dados_fontes),
    ("metodologia", .jstr r.metodologia),
    ("resultados", .jstr r.resultados),
    ("discussoes", .jstr r.discussoes),
    ("conclusoes", .jstr r.conclusoes),
    ("recomendacoes", .jstr r.recomendacoes),
    ("referencias", .jarr (r.referencias.map Referencia.model_dump)),
    ("anexos", .jarr (r.anexos.map Anexo.model_dump)),
    ("observacoes", .jstr r.observacoes)]

/-- Pydantic validation of one string field: absent key falls back to the
declared default, a JSON string is accepted, any other JSON type is a
ValidationError. -/
def fieldStr (kvs : List (String × JsonVal)) (k : String) (d : String) : Option String :=
  match objGet kvs k with
  | none => some d
  | some (.jstr s) => some s
  | some _ => none

/-- Pydantic validation of `Autor` from a JSON value (`Autor(**d)` inside the
validation of the enclosing list). -/
def Autor.model_validate : JsonVal → Option Autor
  | .jobj kvs =>
    match fieldStr kvs "nome" "", fieldStr kvs "cargo" "", fieldStr kvs "email" "" with
    | some n, some c, some e => some { nome := n, cargo := c, email := e }
    | _, _, _ => none
  | _ => none

/-- Pydantic validation of `Referencia` from a JSON value. -/
def Referencia.model_validate : JsonVal → Option Referencia
  | .jobj kvs =>
    match fieldStr kvs "referencia" "" with
    | some x => some { referencia := x }
    | none => none
  | _ => none

/-- Pydantic validation of `Anexo` from a JSON value. -/
def Anexo.model_validate : JsonVal → Option Anexo
  | .jobj kvs =>
    match fieldStr kvs "titulo" "", fieldStr kvs "descricao" "", fieldStr kvs "link" "" with
    | some t, some d, some l => some { titulo := t, descricao := d, link := l }
    | _, _, _ => none
  | _ => none

/-- Elementwise validation of a JSON array of authors. -/
def parseAutores : List JsonVal → Option (List Autor)
  | [] => some []
  | v :: rest =>
    match Autor.model_validate v, parseAutores rest with
    | some a, some as => some (a :: as)
    | _, _ => none

/-- Elementwise validation of a JSON array of references. -/
def parseReferencias : List JsonVal → Option (List Referencia)
  | [] => some []
  | v :: rest =>
    match Referencia.model_validate v, parseReferencias rest with
    | some x, some xs => some (x :: xs)
    | _, _ => none

/-- Elementwise validation of a JSON array of attachments. -/
def parseAnexos : List JsonVal → Option (List Anexo)
  | [] => some []
  | v :: rest =>
    match Anexo.model_validate v, parseAnexos rest with
    | some a, some as => some (a :: as)
    | _, _ => none

/-- Validation of the `autores` field: absent key falls back to the declared
default (one blank author), a JSON array is validated elementwise, any other
type fails. -/
def fieldAutores (kvs : List (String × JsonVal)) : Option (List Autor) :=
  match objGet kvs "autores" with
  | none => some [{ nome := "", cargo := "", email := "" }]
  | some (.jarr xs) => parseAutores xs
  | some _ => none

/-- Validation of the `referencias` field (default empty list). -/
def fieldReferencias (kvs : List (String × JsonVal)) : Option (List Referencia) :=
  match objGet kvs "referencias" with
  | none => some []
  | some (.jarr xs) => parseReferencias xs
  | some _ => none

/-- Validation of the `anexos` field (default empty list). -/
def fieldAnexos (kvs : List (String × JsonVal)) : Option (List Anexo) :=
  match objGet kvs "anexos" with
  | none => some []
  | some (.jarr xs) => parseAnexos xs
  | some _ => none

/-- The underlying dict of a JSON value when it is an object. -/
def asObj : JsonVal → Option (List (String × JsonVal))
  | .jobj kvs => some kvs
  | _ => none

/-- `Relatorio(**data)` on a parsed JSON draft (app.py lines 402 and 446):
pydantic constructs the model, ignoring unknown keys (the default `extra`
behavior), falling back to each field's declared default when its key is
missing, and failing with a ValidationError when a present value has the
wrong shape.  All fields validate independently; the result exists exactly
when every field validates. -/
def Relatorio.model_validate (v : JsonVal) : Option Relatorio :=
  (asObj v).bind fun kvs =>
  match fieldStr kvs "titulo" "Relatório Técnico", fieldStr kvs "cliente" "",
      fieldStr kvs "projeto" "", fieldStr kvs "codigo" "",
      fieldStr kvs "data" todayStr, fieldStr kvs "versao" "1.0",
      fieldAutores kvs, fieldStr kvs "aprovador" "",
      fieldStr kvs "resumo_exec" "", fieldStr kvs "escopo" "",
      fieldStr kvs "dados_fontes" "", fieldStr kvs "metodologia" "",
      fieldStr kvs "resultados" "", fieldStr kvs "discussoes" "",
      fieldStr kvs "conclusoes" "", fieldStr kvs "recomendacoes" "",
      fieldReferencias kvs, fieldAnexos kvs, fieldStr kvs "observacoes" "" with
  | some titulo, some cliente, some projeto, some codigo, some data,
      some versao, some autores, some aprovador, some resumo_exec,
      some escopo, some dados_fontes, some metodologia, some resultados,
      some discussoes, some conclusoes, some recomendacoes,
      some referencias, some anexos, some observacoes =>
    some (Relatorio.mk titulo cliente projeto codigo data versao autores
      aprovador resumo_exec escopo dados_fontes metodologia resultados
      discussoes conclusoes recomendacoes referencias anexos observacoes)
  | _, _, _, _, _, _, _, _, _, _, _, _, _, _, _, _, _, _, _ => none

lemma parseAutores_dump (l : List Autor) :
    parseAutores (l.map Autor.model_dump) = some l := by
  induction l with
  | nil => rfl
  | cons a rest ih =>
    simp only [List.map_cons, parseAutores, ih]
    cases a
    rfl

lemma parseReferencias_dump (l : List Referencia) :
    parseReferencias (l.map Referencia.model_dump) = some l := by
  induction l with
  | nil => rfl
  | cons x rest ih =>
    simp only [List.map_cons, parseReferencias, ih]
    cases x
    rfl

lemma parseAnexos_dump (l : List Anexo) :
    parseAnexos (l.map Anexo.model_dump) = some l := by
  induction l with
  | nil => rfl
  | cons a rest ih =>
    simp only [List.map_cons, parseAnexos, ih]
    cases a
    rfl

/-- C4: for every report — arbitrary field values, empty or non-empty
collections, any unicode text — dumping it to the draft JSON representation
and validating that representation back yields the identical report,
field for field. -/
theorem c4_roundtrip (r : Relatorio) :
    Relatorio.model_validate (Relatorio.model_dump r) = some r := by
  obtain ⟨t, c, p, co, d, v, au, ap, re, es, da, me, rs, di, cn, rc, rf, an, ob⟩ := r
  simp only [Relatorio.model_dump, Relatorio.model_validate, asObj, Option.bind, fieldStr,
    fieldAutores, fieldReferencias, fieldAnexos, objGet, parseAutores_dump,
    parseReferencias_dump, parseAnexos_dump, String.reduceEq, reduceIte]

/-- The declared field names of the `Relatorio` model. -/
def relatorioFieldNames : List String :=
  ["titulo", "cliente", "projeto", "codigo", "data", "versao", "autores",
   "aprovador", "resumo_exec", "escopo", "dados_fontes", "metodologia",
   "resultados", "discussoes", "conclusoes", "recomendacoes", "referencias",
   "anexos", "observacoes"]

/-- The report built from the declared defaults alone. -/
def defaultRelatorio : Relatorio := {}

lemma objGet_eq_none (l : List (String × JsonVal)) (k : String)
    (h : ∀ p ∈ l, p.1 ≠ k) : objGet l k = none := by
  induction l with
  | nil => rfl
  | cons p rest ih =>
    simp only [objGet, ih (fun q hq => h q (List.mem_cons_of_mem _ hq))]
    have hp : p.1 ≠ k := h p (List.mem_cons_self _ _)
    simp [hp]

lemma objGet_append_notin (A junk : List (String × JsonVal)) (k : String)
    (h : ∀ p ∈ junk, p.1 ≠ k) : objGet (A ++ junk) k = objGet A k := by
  induction A with
  | nil =>
    simp only [List.nil_append]
    rw [objGet_eq_none junk k h]
    rfl
  | cons p rest ih => simp only [List.cons_append, objGet, List.append_eq, ih]

lemma fieldStr_congr (A B : List (String × JsonVal)) (k d : String)
    (h : objGet A k = objGet B k) : fieldStr A k d = fieldStr B k d := by
  simp only [fieldStr, h]

lemma fieldAutores_congr (A B : List (String × JsonVal))
    (h : objGet A "autores" = objGet B "autores") : fieldAutores A = fieldAutores B := by
  simp only [fieldAutores, h]

lemma fieldReferencias_congr (A B : List (String × JsonVal))
    (h : objGet A "referencias" = objGet B "referencias") :
    fieldReferencias A = fieldReferencias B := by
  simp only [fieldReferencias, h]

lemma fieldAnexos_congr (A B : List (String × JsonVal))
    (h : objGet A "anexos" = objGet B "anexos") : fieldAnexos A = fieldAnexos B := by
  simp only [fieldAnexos, h]

lemma model_validate_congr (A B : List (String × JsonVal))
    (h : ∀ k ∈ relatorioFieldNames, objGet A k = objGet B k) :
    Relatorio.model_validate (.jobj A) = Relatorio.model_validate (.jobj B) := by
  simp only [Relatorio.model_validate, asObj, Option.bind]
  rw [fieldStr_congr A B "titulo" "Relatório Técnico" (h _ (by decide)),
    fieldStr_congr A B "cliente" "" (h _ (by decide)),
    fieldStr_congr A B "projeto" "" (h _ (by decide)),
    fieldStr_congr A B "codigo" "" (h _ (by decide)),
    fieldStr_congr A B "data" todayStr (h _ (by decide)),
    fieldStr_congr A B "versao" "1.0" (h _ (by decide)),
    fieldAutores_congr A B (h _ (by decide)),
    fieldStr_congr A B "aprovador" "" (h _ (by decide)),
    fieldStr_congr A B "resumo_exec" "" (h _ (by decide)),
    fieldStr_congr A B "escopo" "" (h _ (by decide)),
    fieldStr_congr A B "dados_fontes" "" (h _ (by decide)),
    fieldStr_congr A B "metodologia" "" (h _ (by decide)),
    fieldStr_congr A B "resultados" "" (h _ (by decide)),
    fieldStr_congr A B "discussoes" "" (h _ (by decide)),
    fieldStr_congr A B "conclusoes" "" (h _ (by decide)),
    fieldStr_congr A B "recomendacoes" "" (h _ (by decide)),
    fieldReferencias_congr A B (h _ (by decide)),
    fieldAnexos_congr A B (h _ (by decide)),
    fieldStr_congr A B "observacoes" "" (h _ (by decide))]

/-- C9: deserializing a JSON object that carries keys which are not fields of
the model changes nothing — the unknown keys are ignored (appending them to
any draft yields the same validation result), and an object carrying only
unknown keys validates successfully to the all-defaults report. -/
theorem c9_unknown_keys (kvs junk : List (String × JsonVal))
    (h : ∀ p ∈ junk, p.1 ∉ relatorioFieldNames) :
    Relatorio.model_validate (.jobj (kvs ++ junk)) = Relatorio.model_validate (.jobj kvs) ∧
    Relatorio.model_validate (.jobj junk) = some defaultRelatorio := by
  have hnone : ∀ k ∈ relatorioFieldNames, objGet junk k = none := fun k hk =>
    objGet_eq_none junk k (fun p hp e => h p hp (e ▸ hk))
  constructor
  · exact model_validate_congr (kvs ++ junk) kvs
      (fun k hk => objGet_append_notin kvs junk k (fun p hp e => h p hp (e ▸ hk)))
  · simp only [Relatorio.model_validate, asObj, Option.bind, fieldStr, fieldAutores,
      fieldReferencias, fieldAnexos,
      hnone "titulo" (by decide), hnone "cliente" (by decide),
      hnone "projeto" (by decide), hnone "codigo" (by decide),
      hnone "data" (by decide), hnone "versao" (by decide),
      hnone "autores" (by decide), hnone "aprovador" (by decide),
      hnone "resumo_exec" (by decide), hnone "escopo" (by decide),
      hnone "dados_fontes" (by decide), hnone "metodologia" (by decide),
      hnone "resultados" (by decide), hnone "discussoes" (by decide),
      hnone "conclusoes" (by decide), hnone "recomendacoes" (by decide),
      hnone "referencias" (by decide), hnone "anexos" (by decide),
      hnone "observacoes" (by decide)]
    rfl

/-- A draft dict carrying only keys that are not fields of the model. -/
def junkC9 : List (String × JsonVal) := [("extraneous", .jnum 3), ("outro_campo", .jstr "x")]

/-- A draft dict carrying a known field. -/
def kvsC9 : List (String × JsonVal) := [("titulo", .jstr "T")]

/-- Witness for C9 at a concrete draft with two unknown keys. -/
theorem c9_unknown_keys_witness :
    (∀ p ∈ junkC9, p.1 ∉ relatorioFieldNames) ∧
    (Relatorio.model_validate (.jobj (kvsC9 ++ junkC9)) =
        Relatorio.model_validate (.jobj kvsC9) ∧
      Relatorio.model_validate (.jobj junkC9) = some defaultRelatorio) :=
  ⟨by decide, c9_unknown_keys kvsC9 junkC9 (by decide)⟩

/-- Embedding of `get_logo_dims_cm` (app.py lines 126-134).  The PIL decoding
of `logo_bytes` is abstracted to the decoded pixel size `(w, h) = img.size`;
the centimetre arithmetic (Python floats, exact here: 0.5 and the inputs of
interest are exactly representable) is modelled over `ℚ`. -/
def get_logo_dims_cm (w h : Nat) (width_cm : ℚ) : ℚ × ℚ :=
  if w = 0 ∨ h = 0 then (width_cm, width_cm * (1 / 2))
  else (width_cm, width_cm * ((h : ℚ) / (w : ℚ)))

/-- C6: for nonzero original dimensions the computed height is
`width × h / w` (800×400 at width 3.5 gives height 1.75), and a zero-valued
original width or height falls back to `width × 0.5` instead of dividing
by zero. -/
theorem c6_logo_dims (w h : Nat) (width_cm : ℚ) :
    (w ≠ 0 → h ≠ 0 → get_logo_dims_cm w h width_cm = (width_cm, width_cm * h / w)) ∧
    (w = 0 ∨ h = 0 → get_logo_dims_cm w h width_cm = (width_cm, width_cm * (1 / 2))) ∧
    get_logo_dims_cm 800 400 (7 / 2) = (7 / 2, 7 / 4) ∧
    get_logo_dims_cm 0 400 (7 / 2) = (7 / 2, 7 / 4) := by
  refine ⟨?_, ?_, by norm_num [get_logo_dims_cm], by norm_num [get_logo_dims_cm]⟩
  · intro hw hh
    rw [get_logo_dims_cm, if_neg (by tauto)]
    rw [mul_div_assoc]
  · intro hz
    rw [get_logo_dims_cm, if_pos hz]

/-- Witness for C6 at original size 800×400 and requested width 3.5 cm. -/
theorem c6_logo_dims_witness :
    (800 ≠ 0) ∧ (400 ≠ 0) ∧ get_logo_dims_cm 800 400 (7 / 2) = (7 / 2, (7 / 2) * 400 / 800) :=
  ⟨by norm_num, by norm_num,
    (c6_logo_dims 800 400 (7 / 2)).1 (by norm_num) (by norm_num)⟩

/-- Python `s.replace(' ', '_')`: with a single-character pattern this is the
characterwise map sending the ASCII space to an underscore and leaving every
other character (including other whitespace) unchanged. -/
def spaceToUnderscore (c : Char) : Char :=
  if c = ' ' then '_' else c

/-- The expression `s.replace(' ', '_')` itself. -/
def pyReplaceSpace (s : String) : String :=
  String.mk (s.data.map spaceToUnderscore)

/-- The base name `(rel.codigo or 'relatorio')` shared by every filename
expression. -/
def baseName (codigo : String) : String :=
  pyOr codigo "relatorio"

/-- Draft-save filename (app.py lines 411 and 527). -/
def draftSaveFilename (codigo : String) : String :=
  pyReplaceSpace (baseName codigo) ++ ".json"

/-- Markdown download filename (app.py line 545). -/
def mdFilename (codigo : String) : String :=
  pyReplaceSpace (baseName codigo) ++ ".md"

/-- PDF download filename (app.py line 554); no space replacement here. -/
def pdfFilename (codigo : String) : String :=
  baseName codigo ++ ".pdf"

/-- DOCX download filename (app.py line 560); no space replacement here. -/
def docxFilename (codigo : String) : String :=
  baseName codigo ++ ".docx"

/-- Draft download filename (app.py line 639); no space replacement here. -/
def rascunhoFilename (codigo : String) : String :=
  baseName codigo ++ "_rascunho.json"

/-- C10: with an empty code every draft/export filename falls back to the
fixed base name "relatorio", and the whitespace replacement rewrites only
the ASCII space character — a tab survives, as the concrete example
"a\tb c" shows. -/
theorem c10_filenames :
    draftSaveFilename "" = "relatorio.json" ∧
    mdFilename "" = "relatorio.md" ∧
    pdfFilename "" = "relatorio.pdf" ∧
    docxFilename "" = "relatorio.docx" ∧
    rascunhoFilename "" = "relatorio_rascunho.json" ∧
    (∀ c : Char, c ≠ ' ' → spaceToUnderscore c = c) ∧
    spaceToUnderscore ' ' = '_' ∧
    draftSaveFilename "a\tb c" = "a\tb_c.json" := by
  refine ⟨rfl, rfl, rfl, rfl, rfl, ?_, rfl, rfl⟩
  intro c hc
  rw [spaceToUnderscore, if_neg hc]

/-- Witness for C10 at the tab character. -/
theorem c10_filenames_witness :
    ('\t' ≠ ' ') ∧ spaceToUnderscore '\t' = '\t' :=
  ⟨by decide, c10_filenames.2.2.2.2.2.1 '\t' (by decide)⟩

/-- Python `text.replace("\n", "<br/>")` as applied by the `p` helper of
`build_pdf`; the pattern is a single character, so this is a characterwise
expansion. -/
def nlToBr (s : String) : String :=
  String.mk (s.data.foldr
    (fun c acc => if c = '\n' then '<' :: 'b' :: 'r' :: '/' :: '>' :: acc else c :: acc) [])

/-- Story elements of the ReportLab document built by `build_pdf`: images
(width and height in cm), styled paragraphs, spacers. -/
inductive PdfElem where
  | image (w h : ℚ)
  | para (text style : String)
  | spacer
deriving DecidableEq

/-- The `p` helper of `build_pdf` (app.py lines 150-152): one paragraph with
newlines expanded to line breaks, followed by a spacer. -/
def pdf_p (text style : String) : List PdfElem :=
  [.para (nlToBr text) style, .spacer]

/-- The `sec` helper of `build_pdf` (app.py lines 181-183). -/
def pdf_sec (title text : String) : List PdfElem :=
  pdf_p ("<b>" ++ title ++ "</b>") "BodyText" ++ pdf_p (pyOr text "(preencher)") "BodyText"

/-- The metadata paragraph of `build_pdf` (app.py lines 162-173): each value
with a "-" fallback. -/
def pdfMeta (r : Relatorio) : String :=
  "Cliente: <b>" ++ pyOr r.cliente "-" ++ "</b><br/>" ++
  "Projeto: <b>" ++ pyOr r.projeto "-" ++ "</b><br/>" ++
  "Código: <b>" ++ pyOr r.codigo "-" ++ "</b><br/>" ++
  "Data: <b>" ++ pyOr r.data "-" ++ "</b><br/>" ++
  "Versão: <b>" ++ pyOr r.versao "-" ++ "</b>"

/-- The authors join of `build_pdf` (app.py line 176), with its
"(preencher)" fallback when no author has a truthy stripped name. -/
def pdfAutoresText (r : Relatorio) : String :=
  pyOr (String.intercalate "<br/>"
    ((r.autores.filter (fun a => pyStripTruthy a.nome)).map
      (fun a => "- " ++ a.nome ++ " (" ++ a.cargo ++ ") &lt;" ++ a.email ++ "&gt;")))
    "(preencher)"

/-- The references join of `build_pdf` (app.py line 195). -/
def pdfRefsText (r : Relatorio) : String :=
  pyOr (String.intercalate "<br/>"
    ((r.referencias.filter (fun x => pyStripTruthy x.referencia)).map
      (fun x => "- " ++ x.referencia)))
    "(preencher)"

/-- The attachments join of `build_pdf` (app.py lines 198-200). -/
def pdfAnexosText (r : Relatorio) : String :=
  pyOr (String.intercalate "<br/>"
    ((r.anexos.filter (fun a => pyStripTruthy a.titulo)).map
      (fun a => "- <b>" ++ a.titulo ++ "</b> – " ++ a.descricao ++ " " ++
        (if a.link ≠ "" then "(" ++ a.link ++ ")" else ""))))
    "(preencher)"

/-- Embedding of `build_pdf` (app.py lines 137-207) at the story level: the
ordered list of flowables handed to the document builder.  The PIL decoding
of the logo bytes is abstracted to the decoded pixel size; page geometry,
fonts and the final byte rendering are layout details outside the model. -/
def build_pdf (r : Relatorio) (logo : Option (Nat × Nat)) (logo_width_cm : ℚ) : List PdfElem :=
  (match logo with
   | none => []
   | some wh =>
     [.image (get_logo_dims_cm wh.1 wh.2 logo_width_cm).1
        (get_logo_dims_cm wh.1 wh.2 logo_width_cm).2, .spacer]) ++
  pdf_p ("<b>" ++ r.titulo ++ "</b>") "Title" ++
  pdf_p (pdfMeta r) "BodyText" ++
  pdf_p ("<b>Autores</b><br/>" ++ pdfAutoresText r) "BodyText" ++
  pdf_p ("<b>Aprovador</b><br/>" ++ pyOr r.aprovador "(preencher)") "BodyText" ++
  pdf_sec "Resumo Executivo" r.resumo_exec ++
  pdf_sec "Escopo" r.escopo ++
  pdf_sec "Dados & Fontes" r.dados_fontes ++
  pdf_sec "Metodologia" r.metodologia ++
  pdf_sec "Resultados" r.resultados ++
  pdf_sec "Discussões" r.discussoes ++
  pdf_sec "Conclusões" r.conclusoes ++
  pdf_sec "Recomendações" r.recomendacoes ++
  pdf_p ("<b>Referências</b><br/>" ++ pdfRefsText r) "BodyText" ++
  pdf_p ("<b>Anexos</b><br/>" ++ pdfAnexosText r) "BodyText" ++
  (if r.observacoes = "" then [] else pdf_sec "Observações" r.observacoes)

/-- Content blocks of the python-docx document built by `build_docx`. -/
inductive DocxBlock where
  | heading (level : Nat) (text : String)
  | para (text : String)
deriving DecidableEq

/-- The docx document: optional running-header logo (width in cm), the Normal
style font, and the ordered body blocks. -/
structure DocxDoc where
  headerLogoWidthCm : Option ℚ
  fontName : String
  fontSizePt : Nat
  blocks : List DocxBlock
deriving DecidableEq

/-- The author paragraphs of `build_docx` (app.py lines 236-238): one
paragraph per author with a truthy stripped name — and nothing at all when
there is none. -/
def docxAutoresBlocks (r : Relatorio) : List DocxBlock :=
  (r.autores.filter (fun a => pyStripTruthy a.nome)).map
    (fun a => .para ("- " ++ a.nome ++ " (" ++ a.cargo ++ ") <" ++ a.email ++ ">"))

/-- The metadata paragraph of `build_docx` (app.py lines 228-233). -/
def docxMeta (r : Relatorio) : String :=
  "Cliente: " ++ pyOr r.cliente "-" ++
  "\nProjeto: " ++ pyOr r.projeto "-" ++
  "\nCódigo: " ++ pyOr r.codigo "-" ++
  "\nData: " ++ pyOr r.data "-" ++
  "\nVersão: " ++ pyOr r.versao "-"

/-- The `sec` helper of `build_docx` (app.py lines 241-243). -/
def docx_sec (title text : String) : List DocxBlock :=
  [.heading 1 title, .para (pyOr text "(preencher)")]

/-- The references block of `build_docx` (app.py lines 254-260): the
placeholder paragraph appears only when the list itself is empty. -/
def docxRefsBlocks (r : Relatorio) : List DocxBlock :=
  if r.referencias.isEmpty then [.para "(preencher)"]
  else (r.referencias.filter (fun x => pyStripTruthy x.referencia)).map
    (fun x => .para ("- " ++ x.referencia))

/-- The attachments block of `build_docx` (app.py lines 262-271). -/
def docxAnexosBlocks (r : Relatorio) : List DocxBlock :=
  if r.anexos.isEmpty then [.para "(preencher)"]
  else (r.anexos.filter (fun a => pyStripTruthy a.titulo)).map
    (fun a => .para ("- " ++ a.titulo ++ " – " ++ a.descricao ++
      (if a.link ≠ "" then " (" ++ a.link ++ ")" else "")))

/-- Embedding of `build_docx` (app.py lines 209-278) at the block level.
The logo bytes are abstracted to their decoded pixel size (unused by docx,
which only sets the width); the container serialization is outside the
model. -/
def build_docx (r : Relatorio) (logo : Option (Nat × Nat)) (logo_width_cm : ℚ) : DocxDoc :=
  { headerLogoWidthCm := logo.map (fun _ => logo_width_cm),
    fontName := "Calibri",
    fontSizePt := 11,
    blocks :=
      [.heading 0 (pyOr r.titulo "Relatório Técnico"),
       .para (docxMeta r),
       .heading 1 "Autores"] ++
      docxAutoresBlocks r ++
      [.para ("Aprovador: " ++ pyOr r.aprovador "(preencher)")] ++
      docx_sec "Resumo Executivo" r.resumo_exec ++
      docx_sec "Escopo" r.escopo ++
      docx_sec "Dados & Fontes" r.dados_fontes ++
      docx_sec "Metodologia" r.metodologia ++
      docx_sec "Resultados" r.resultados ++
      docx_sec "Discussões" r.discussoes ++
      docx_sec "Conclusões" r.conclusoes ++
      docx_sec "Recomendações" r.recomendacoes ++
      [.heading 1 "Referências"] ++ docxRefsBlocks r ++
      [.heading 1 "Anexos"] ++ docxAnexosBlocks r ++
      (if r.observacoes = "" then [] else docx_sec "Observações" r.observacoes) }

/-- A report whose only author has a whitespace-only name; every other field
keeps its default. -/
def rWhitespaceAuthor : Relatorio :=
  { autores := [{ nome := " ", cargo := "", email := "" }] }

/-- C8 counterexample: when every author name is whitespace-only, the
authors block of `build_docx` is empty — the block after the "Autores"
heading is already the approver paragraph — whereas `build_pdf` renders the
"(preencher)" fallback for the same report; so `build_docx` does not apply
the paginated renderer's author fallback rule. -/
theorem c8_counterexample :
    docxAutoresBlocks rWhitespaceAuthor = [] ∧
    (build_docx rWhitespaceAuthor none 3).blocks[2]? = some (.heading 1 "Autores") ∧
    (build_docx rWhitespaceAuthor none 3).blocks[3]? = some (.para "Aprovador: (preencher)") ∧
    (build_pdf rWhitespaceAuthor none 3)[4]? =
      some (.para "<b>Autores</b><br/>(preencher)" "BodyText") :=
  ⟨rfl, rfl, rfl, rfl⟩

/-- C8 amended: `build_docx` does not share the pdf renderer's authors
fallback: for every report whose author names are all empty or
whitespace-only it emits no author paragraph at all — the "Autores" heading
is immediately followed by the approver paragraph — while `build_pdf`
renders "(preencher)" in its authors block for the same report. -/
theorem c8_amended (r : Relatorio) (logo : Option (Nat × Nat)) (w : ℚ)
    (h : ∀ a ∈ r.autores, pyStripTruthy a.nome = false) :
    docxAutoresBlocks r = [] ∧
    (build_docx r logo w).blocks =
      [DocxBlock.heading 0 (pyOr r.titulo "Relatório Técnico"),
       DocxBlock.para (docxMeta r),
       DocxBlock.heading 1 "Autores",
       DocxBlock.para ("Aprovador: " ++ pyOr r.aprovador "(preencher)")] ++
      (docx_sec "Resumo Executivo" r.resumo_exec ++
       docx_sec "Escopo" r.escopo ++
       docx_sec "Dados & Fontes" r.dados_fontes ++
       docx_sec "Metodologia" r.metodologia ++
       docx_sec "Resultados" r.resultados ++
       docx_sec "Discussões" r.discussoes ++
       docx_sec "Conclusões" r.conclusoes ++
       docx_sec "Recomendações" r.recomendacoes ++
       [DocxBlock.heading 1 "Referências"] ++ docxRefsBlocks r ++
       [DocxBlock.heading 1 "Anexos"] ++ docxAnexosBlocks r ++
       (if r.observacoes = "" then [] else docx_sec "Observações" r.observacoes)) ∧
    pdfAutoresText r = "(preencher)" := by
  have hf : r.autores.filter (fun a => pyStripTruthy a.nome) = [] :=
    List.filter_eq_nil_iff.mpr (fun a ha => by simp [h a ha])
  have hA : docxAutoresBlocks r = [] := by simp [docxAutoresBlocks, hf]
  refine ⟨hA, ?_, ?_⟩
  · simp [build_docx, hA]
  · have hnil : String.intercalate "<br/>" ([] : List String) = "" := rfl
    simp [pdfAutoresText, hf, hnil, pyOr]

/-- Witness for C8 amended at the whitespace-named author report. -/
theorem c8_amended_witness :
    (∀ a ∈ rWhitespaceAuthor.autores, pyStripTruthy a.nome = false) ∧
    (docxAutoresBlocks rWhitespaceAuthor = [] ∧
      (build_docx rWhitespaceAuthor none 3).blocks =
        [DocxBlock.heading 0 (pyOr rWhitespaceAuthor.titulo "Relatório Técnico"),
         DocxBlock.para (docxMeta rWhitespaceAuthor),
         DocxBlock.heading 1 "Autores",
         DocxBlock.para ("Aprovador: " ++ pyOr rWhitespaceAuthor.aprovador "(preencher)")] ++
        (docx_sec "Resumo Executivo" rWhitespaceAuthor.resumo_exec ++
         docx_sec "Escopo" rWhitespaceAuthor.escopo ++
         docx_sec "Dados & Fontes" rWhitespaceAuthor.dados_fontes ++
         docx_sec "Metodologia" rWhitespaceAuthor.metodologia ++
         docx_sec "Resultados" rWhitespaceAuthor.resultados ++
         docx_sec "Discussões" rWhitespaceAuthor.discussoes ++
         docx_sec "Conclusões" rWhitespaceAuthor.conclusoes ++
         docx_sec "Recomendações" rWhitespaceAuthor.recomendacoes ++
         [DocxBlock.heading 1 "Referências"] ++ docxRefsBlocks rWhitespaceAuthor ++
         [DocxBlock.heading 1 "Anexos"] ++ docxAnexosBlocks rWhitespaceAuthor ++
         (if rWhitespaceAuthor.observacoes = "" then []
          else docx_sec "Observações" rWhitespaceAuthor.observacoes)) ∧
      pdfAutoresText rWhitespaceAuthor = "(preencher)") :=
  ⟨by decide, c8_amended rWhitespaceAuthor none 3 (by decide)⟩

/-- The standard base64 alphabet. -/
def base64Alphabet : List Char :=
  "ABCDEFGHIJKLMNOPQRSTUVWXYZabcdefghijklmnopqrstuvwxyz0123456789+/".data

/-- Character of a 6-bit group. -/
def b64char (n : Nat) : Char :=
  base64Alphabet.getD n 'A'

/-- `base64.b64encode(data).decode("utf-8")` on a byte sequence: standard
base64 with "=" padding. -/
def base64Encode : List Nat → String
  | [] => ""
  | a :: rest1 =>
    match rest1 with
    | [] => String.mk [b64char (a / 4), b64char (a % 4 * 16)] ++ "=="
    | b :: rest2 =>
      match rest2 with
      | [] =>
        String.mk [b64char (a / 4), b64char (a % 4 * 16 + b / 16),
          b64char (b % 16 * 4)] ++ "="
      | c :: rest =>
        String.mk [b64char (a / 4), b64char (a % 4 * 16 + b / 16),
          b64char (b % 16 * 4 + c / 64), b64char (c % 64)] ++ base64Encode rest

/-- The `[github]` section of `st.secrets`: each key may be missing
(`dict.get`); a missing section behaves as all keys missing. -/
structure GithubSecrets where
  token : Option String
  repo : Option String
  branch : Option String
  base_path : Option String
deriving DecidableEq

/-- An HTTP response as seen by `github_upload_bytes`: status code, raw text,
and the parsed JSON body (`r.json()`). -/
structure HttpResp where
  status : Nat
  text : String
  body : JsonVal

/-- The URL targeted by the upload (app.py line 328). -/
def githubUrl (repo bp filename : String) : String :=
  "https://api.github.com/repos/" ++ repo ++ "/contents/" ++ bp ++ "/" ++ filename

/-- The JSON payload of the PUT request (app.py line 329): the byte payload
is transmitted as base64 text. -/
def githubPayload (data : List Nat) (message branch : String) : JsonVal :=
  .jobj [("message", .jstr message), ("content", .jstr (base64Encode data)),
    ("branch", .jstr branch)]

/-- `d.get(k, "")` restricted to string values (non-string values, which the
hosting API never produces for these keys, are modelled as absent). -/
def jStrGetD (kvs : List (String × JsonVal)) (k : String) : String :=
  match objGet kvs k with
  | some (.jstr s) => s
  | _ => ""

/-- Embedding of `github_upload_bytes` (app.py lines 322-337).  The network
round-trip is a `transport` function from URL and JSON payload to the
response.  The first component is the value returned to the caller; the
second is the diagnostic shown through `st.error`, `none` when nothing is
displayed.  Every exception inside the body — missing configuration, a
non-2xx status, a body without the expected shape — is caught by the
enclosing `except`, displayed, and turned into the returned empty string. -/
def github_upload_bytes (gh : GithubSecrets) (filename : String) (data : List Nat)
    (message : String) (transport : String → JsonVal → HttpResp) :
    String × Option String :=
  let token := gh.token.getD ""
  let repo := gh.repo.getD ""
  let branch := gh.branch.getD "main"
  let bp := gh.base_path.getD "reports"
  if token = "" ∨ repo = "" then
    ("", some "GitHub upload falhou: Token/Repo não configurados em st.secrets[\x27github\x27]")
  else
    let resp := transport (githubUrl repo bp filename) (githubPayload data message branch)
    if resp.status ≠ 200 ∧ resp.status ≠ 201 then
      ("", some ("GitHub upload falhou: GitHub API: " ++ toString resp.status ++ " – " ++
        resp.text))
    else
      match resp.body with
      | .jobj kvs =>
        match (objGet kvs "content").getD (.jobj []) with
        | .jobj ckvs => (pyOr (jStrGetD ckvs "html_url") (jStrGetD ckvs "path"), none)
        | _ => ("", some "GitHub upload falhou: AttributeError")
      | _ => ("", some "GitHub upload falhou: AttributeError")

/-- A fully configured `[github]` secrets section. -/
def ghConfigured : GithubSecrets :=
  { token := some "tok", repo := some "user/repo", branch := some "main",
    base_path := some "reports" }

/-- A transport whose round-trip is refused with 403. -/
def failTransport : String → JsonVal → HttpResp :=
  fun _ _ => { status := 403, text := "Forbidden", body := .jobj [] }

/-- C5 counterexample: on an authorization failure (HTTP 403) the caller of
`github_upload_bytes` receives the plain empty string — the same type and
channel as a success value — not a typed UploadError; the diagnostic goes
only to the UI display channel, and the `except` clause swallows the
exception before it can reach the caller. -/
theorem c5_counterexample :
    github_upload_bytes ghConfigured "r.md" [104, 105] "msg" failTransport =
      ("", some "GitHub upload falhou: GitHub API: 403 – Forbidden") := rfl

/-- C5 amended: `github_upload_bytes` never surfaces a typed error to its
caller.  With token and repo configured, a non-2xx response makes it catch
the raised error, display the diagnostic via the UI, and return the empty
string; a 200/201 response with the expected body shape returns the
`html_url` (falling back to `path`); and the transmitted payload carries the
byte data base64-encoded ("Man" encodes to "TWFu", "hi" to "aGk="). -/
theorem c5_amended (gh : GithubSecrets) (filename message : String) (data : List Nat)
    (transport : String → JsonVal → HttpResp) (resp : HttpResp)
    (htok : gh.token.getD "" ≠ "") (hrepo : gh.repo.getD "" ≠ "")
    (hresp : transport
      (githubUrl (gh.repo.getD "") (gh.base_path.getD "reports") filename)
      (githubPayload data message (gh.branch.getD "main")) = resp) :
    (resp.status ≠ 200 → resp.status ≠ 201 →
      github_upload_bytes gh filename data message transport =
        ("", some ("GitHub upload falhou: GitHub API: " ++ toString resp.status ++ " – " ++
          resp.text))) ∧
    (∀ kvs ckvs, (resp.status = 200 ∨ resp.status = 201) → resp.body = .jobj kvs →
      (objGet kvs "content").getD (.jobj []) = .jobj ckvs →
      github_upload_bytes gh filename data message transport =
        (pyOr (jStrGetD ckvs "html_url") (jStrGetD ckvs "path"), none)) ∧
    githubPayload data message (gh.branch.getD "main") =
      .jobj [("message", .jstr message), ("content", .jstr (base64Encode data)),
        ("branch", .jstr (gh.branch.getD "main"))] ∧
    base64Encode [77, 97, 110] = "TWFu" ∧ base64Encode [104, 105] = "aGk=" := by
  refine ⟨?_, ?_, rfl, rfl, rfl⟩
  · intro h200 h201
    simp only [github_upload_bytes, hresp]
    rw [if_neg (by tauto), if_pos ⟨h200, h201⟩]
  · intro kvs ckvs hst hbody hcontent
    simp only [github_upload_bytes, hresp]
    rw [if_neg (by tauto), if_neg (by tauto)]
    rw [hbody]
    simp only [hcontent]

/-- Witness for C5 amended at the configured secrets and the 403 transport. -/
theorem c5_amended_witness :
    (ghConfigured.token.getD "" ≠ "") ∧ (ghConfigured.repo.getD "" ≠ "") ∧
    ((403 ≠ 200 → 403 ≠ 201 →
      github_upload_bytes ghConfigured "r.md" [104, 105] "msg" failTransport =
        ("", some ("GitHub upload falhou: GitHub API: " ++ toString 403 ++ " – " ++
          "Forbidden"))) ∧
    (∀ kvs ckvs, ((403 : Nat) = 200 ∨ (403 : Nat) = 201) →
      JsonVal.jobj [] = .jobj kvs →
      (objGet kvs "content").getD (.jobj []) = .jobj ckvs →
      github_upload_bytes ghConfigured "r.md" [104, 105] "msg" failTransport =
        (pyOr (jStrGetD ckvs "html_url") (jStrGetD ckvs "path"), none)) ∧
    githubPayload [104, 105] "msg" (ghConfigured.branch.getD "main") =
      .jobj [("message", .jstr "msg"),
        ("content", .jstr (base64Encode [104, 105])),
        ("branch", .jstr (ghConfigured.branch.getD "main"))] ∧
    base64Encode [77, 97, 110] = "TWFu" ∧ base64Encode [104, 105] = "aGk=") :=
  ⟨by decide, by decide,
    c5_amended ghConfigured "r.md" "msg" [104, 105] failTransport
      { status := 403, text := "Forbidden", body := .jobj [] }
      (by decide) (by decide) rfl⟩
